import Mathlib

/-
Verification of the golix cryptographic core (src/golix/cipher.py and
src/golix/utils.py) against its natural-language specification.

Modelling conventions:
- Python byte strings are Lean lists of Nat byte values.
- Python exceptions become an explicit error type with one constructor per
  distinguishable raise site; fallible operations return Except.
- The external schema layer (the _getlow module with GIDC/GEOC/GOBS/GOBD/
  GDXX/GARQ pack and unpack, and the smartyparse library) is not present
  under src; following the specification it is treated as an external
  collaborator and modelled by abstract pack and unpack functions collected
  in the Externals structure.  The cryptographic primitives supplied by external
  libraries (pycryptodome RSA/AES/HMAC/HKDF, donna25519) are likewise
  abstract function parameters in Externals; Curve25519 key exchange is modelled
  by scalars with the shared point determined by the product of the two
  scalars, which is the defining algebraic property of Diffie-Hellman on a
  cyclic group.
-/

deriving instance DecidableEq for Except

/-- Python byte strings, as lists of byte values. -/
abbrev Bytes := List Nat

/-- Python exceptions raised by the library, one constructor per
distinguishable raise site.  parseError is the smartyparse ParseError
(the spec calls the all-schemas-fail case UnknownObject); securityError is
utils.SecurityError; typeErrorBadSecret is the TypeError raised by
make_container when the secret fails _typecheck_secret (the spec calls it
IncompatibleSuite); valueErrorAsymNotVerifiable and
valueErrorIdentityNotSignable are the two ValueError raises of
verify_object (the spec calls them AsymmetricNotVerifiable and
IdentityNotSignable); the four valueError constructors for version,
cipher, key and seed are the four ValueError raises of Secret.__init__;
valueErrorFrozenLen is the ValueError of _FrozenHash.__init__ when the
data length differs from the digest size; keyError is the dict KeyError
escaping the smartyparse cipher callback; attributeError is the
AttributeError from reading an unset attribute. -/
inductive PyError
  | parseError
  | securityError
  | typeError
  | typeErrorBadSecret
  | valueErrorVersion
  | valueErrorCipher
  | valueErrorKeyLen
  | valueErrorSeedLen
  | valueErrorAddr
  | valueErrorAsymNotVerifiable
  | valueErrorIdentityNotSignable
  | valueErrorFrozenLen
  | keyError
  | attributeError
deriving DecidableEq, Repr

/-- Byte values of an ASCII string, for the sentinel constants of utils. -/
def strBytes (s : String) : Bytes := s.data.map Char.toNat

/-- Sentinel address returned by AddressAlgo0 and by the Guid address
getter for algo 0 (utils._dummy_address). -/
def dummyAddress : Bytes :=
  strBytes "[[ Start hash " ++ List.replicate 38 45 ++ strBytes " End hash ]]"

/-- GUID from utils.Guid: an address algorithm id paired with the stored
address bytes.  The stored field models the _address slot. -/
structure Guid where
  algo : Nat
  _address : Bytes
deriving DecidableEq, Repr

/-- Guid construction through the Python address setter: for algo 0 the
given address is discarded (the _address slot is never written). -/
def Guid.make (algo : Nat) (address : Bytes) : Guid :=
  if algo = 0 then ⟨0, []⟩ else ⟨algo, address⟩

/-- Guid.address property getter: algo 0 always reads the sentinel. -/
def Guid.address (g : Guid) : Bytes :=
  if g.algo = 0 then dummyAddress else g._address

/-- Entry of utils.cipher_length_lookup. -/
structure CipherLengths where
  key : Nat
  sig : Nat
  mac : Nat
  asym : Nat
  seed : Nat
deriving DecidableEq, Repr

/-- utils.cipher_length_lookup: registered byte lengths per cipher id.
Note the third entry, cipher 2, beyond the two suites of the spec. -/
def cipher_length_lookup : Nat → Option CipherLengths
  | 0 => some ⟨32, 512, 64, 512, 0⟩
  | 1 => some ⟨32, 512, 64, 512, 16⟩
  | 2 => some ⟨64, 512, 64, 512, 0⟩
  | _ => none

/-- Registered Secret serialization versions (utils._secret_parsers has the
single key 2). -/
def secretVersions : List Nat := [2]

/-- utils._secret_latest. -/
def secretLatest : Nat := 2

/-- Magic bytes of the Secret serialization, the ASCII pair SH. -/
def secretMagic : Bytes := [83, 72]

/-- Big-endian two-byte encoding of an unsigned 16-bit value. -/
def u16be (v : Nat) : Bytes := [v / 256 % 256, v % 256]

/-- utils.Secret data: version, cipher id, key bytes, seed bytes. -/
structure Secret where
  version : Nat
  cipher : Nat
  key : Bytes
  seed : Bytes
deriving DecidableEq, Repr

/-- Seed argument defaulting of Secret.__init__: None becomes empty. -/
def seedBytes (seed : Option Bytes) : Bytes := seed.getD []

/-- Version argument resolution of Secret.__init__: none models the
default latest sentinel, any explicit version must be registered. -/
def resolveVersion (version : Option Nat) : Except PyError Nat :=
  match version with
  | none => .ok secretLatest
  | some v => if v ∈ secretVersions then .ok v else .error .valueErrorVersion

/-- Secret.__init__: defaults the seed to empty, resolves the version,
validates the cipher and the two lengths, in the order of the source. -/
def Secret.make (cipher : Nat) (key : Bytes) (seed : Option Bytes)
    (version : Option Nat) : Except PyError Secret :=
  match resolveVersion version with
  | .error e => .error e
  | .ok v =>
    match cipher_length_lookup cipher with
    | none => .error .valueErrorCipher
    | some l =>
      if key.length ≠ l.key then .error .valueErrorKeyLen
      else if (seedBytes seed).length ≠ l.seed then .error .valueErrorSeedLen
      else .ok ⟨v, cipher, key, seedBytes seed⟩

/-- Secret.__bytes__ through the smartyparse field list: magic, version as
unsigned 16-bit big endian, cipher as one byte, key blob, seed blob.  The
blob lengths of a Secret built by Secret.make always match the registered
lengths, so the pack-time length enforcement of the parser library is not
modelled. -/
def Secret.to_bytes (s : Secret) : Bytes :=
  secretMagic ++ u16be s.version ++ [s.cipher] ++ s.key ++ s.seed

/-- Secret.from_bytes: parse magic, version, cipher; the postunpack
callback looks the cipher up in cipher_length_lookup (a missing entry
escapes as a KeyError); the key and seed blobs are cut at the registered
lengths; finally Secret.__init__ revalidates everything. -/
def Secret.from_bytes (data : Bytes) : Except PyError Secret :=
  match data with
  | m1 :: m2 :: vh :: vl :: c :: rest =>
    if m1 = 83 ∧ m2 = 72 then
      match cipher_length_lookup c with
      | none => .error .keyError
      | some l =>
        if l.key + l.seed ≤ rest.length then
          Secret.make c (rest.take l.key) (some ((rest.drop l.key).take l.seed))
            (some (256 * vh + vl))
        else .error .parseError
    else .error .parseError
  | _ => .error .parseError

/-- Well-formed Secret: registered version and key and seed lengths
matching the registered lengths of its cipher.  These are exactly the
records Secret.__init__ can produce. -/
def Secret.wellFormed (s : Secret) : Prop :=
  s.version ∈ secretVersions ∧
    ∃ l, cipher_length_lookup s.cipher = some l ∧
      s.key.length = l.key ∧ s.seed.length = l.seed

theorem Secret.make_wellFormed {cipher key seed version s}
    (h : Secret.make cipher key seed version = .ok s) : s.wellFormed := by
  unfold Secret.make at h
  split at h
  · exact absurd h (by simp)
  next v hv =>
    split at h
    · exact absurd h (by simp)
    next l hl =>
      split at h
      · exact absurd h (by simp)
      next hk =>
        split at h
        · exact absurd h (by simp)
        next hs =>
          cases h
          refine ⟨?_, l, hl, not_not.mp hk, not_not.mp hs⟩
          cases version with
          | none =>
            simp only [resolveVersion, Except.ok.injEq] at hv
            subst hv
            simp [secretLatest, secretVersions]
          | some v' =>
            simp only [resolveVersion] at hv
            split at hv
            · simp only [Except.ok.injEq] at hv
              subst hv
              assumption
            · exact absurd hv (by simp)

theorem Secret.version_eq_two {s : Secret} (h : s.wellFormed) : s.version = 2 := by
  have := h.1
  simpa [secretVersions] using this

/-- Round trip of the Secret serialization for any well-formed record. -/
theorem Secret.roundtrip_wf {s : Secret} (h : s.wellFormed) :
    Secret.from_bytes (Secret.to_bytes s) = .ok s := by
  obtain ⟨hv, l, hl, hk, hs⟩ := h
  have hv2 : s.version = 2 := Secret.version_eq_two ⟨hv, l, hl, hk, hs⟩
  have hbytes : Secret.to_bytes s =
      83 :: 72 :: 0 :: 2 :: s.cipher :: (s.key ++ s.seed) := by
    simp [Secret.to_bytes, secretMagic, u16be, hv2]
  rw [hbytes]
  simp only [Secret.from_bytes, hl]
  rw [if_pos (by simp)]
  have hlen : l.key + l.seed ≤ (s.key ++ s.seed).length := by
    simp [List.length_append, hk, hs]
  rw [if_pos hlen]
  rw [← hk, ← hs, List.take_left, List.drop_left, List.take_length]
  unfold Secret.make resolveVersion
  have h2 : ((256 * 0 + 2 : Nat) ∈ secretVersions) := by simp [secretVersions]
  simp only [if_pos h2, hl]
  rw [if_neg (by simp [hk]), if_neg (by simp [seedBytes, hs])]
  cases s with
  | mk v c k sd =>
    simp only [Secret.version] at hv2
    subst hv2
    simp [seedBytes]

/-- C4: for every well-formed Secret, parsing the byte serialization gives
back an equal Secret, with the same cipher, version, key and seed.  The
hypothesis states well-formedness exactly as Secret.__init__ enforces it:
registered version and registered key and seed lengths for the cipher. -/
theorem C4_secret_roundtrip (s : Secret) (h : s.wellFormed) :
    Secret.from_bytes (Secret.to_bytes s) = .ok s :=
  Secret.roundtrip_wf h

/-- Concrete instance of C4: a live-suite Secret with a 32-byte key and a
16-byte seed round-trips. -/
theorem C4_secret_roundtrip_witness :
    (Secret.mk 2 1 (List.replicate 32 7) (List.replicate 16 9)).wellFormed ∧
      Secret.from_bytes
        (Secret.to_bytes (Secret.mk 2 1 (List.replicate 32 7) (List.replicate 16 9))) =
        .ok (Secret.mk 2 1 (List.replicate 32 7) (List.replicate 16 9)) :=
  ⟨⟨by decide, ⟨32, 512, 64, 512, 16⟩, by decide, by decide, by decide⟩,
    C4_secret_roundtrip _
      ⟨by decide, ⟨32, 512, 64, 512, 16⟩, by decide, by decide, by decide⟩⟩

/-- C10: the cipher id 2 is accepted by Secret construction: with the
default version, Secret.make 2 key seed succeeds exactly when the key has
64 bytes and the seed is absent or empty, and the resulting Secret
round-trips through the serialization like any other. -/
theorem C10_cipher_two :
    (∀ (key : Bytes) (seed : Option Bytes),
      (∃ s, Secret.make 2 key seed none = .ok s) ↔
        key.length = 64 ∧ (seed.getD []).length = 0) ∧
    (∀ (key : Bytes) (seed : Option Bytes) (s : Secret),
      Secret.make 2 key seed none = .ok s →
        Secret.from_bytes (Secret.to_bytes s) = .ok s) := by
  have hlook : cipher_length_lookup 2 = some ⟨64, 512, 64, 512, 0⟩ := rfl
  constructor
  · intro key seed
    constructor
    · rintro ⟨s, hs⟩
      unfold Secret.make at hs
      split at hs
      · exact absurd hs (by simp)
      next v hv =>
        simp only [hlook] at hs
        split at hs
        · exact absurd hs (by simp)
        next hk =>
          split at hs
          · exact absurd hs (by simp)
          next hsd =>
            exact ⟨not_not.mp hk, by simpa [seedBytes] using not_not.mp hsd⟩
    · rintro ⟨hk, hsd⟩
      refine ⟨⟨secretLatest, 2, key, seedBytes seed⟩, ?_⟩
      unfold Secret.make resolveVersion
      simp only [hlook]
      rw [if_neg (by simp [hk]),
        if_neg (by simp only [ne_eq, not_not, seedBytes]; exact hsd)]
  · intro key seed s hs
    exact Secret.roundtrip_wf (Secret.make_wellFormed hs)

/-- Concrete instance of C10: a 64-byte key with no seed is accepted under
cipher 2 and the result round-trips. -/
theorem C10_cipher_two_witness :
    (∃ s, Secret.make 2 (List.replicate 64 3) none none = .ok s) ∧
      Secret.from_bytes
        (Secret.to_bytes (Secret.mk 2 2 (List.replicate 64 3) [])) =
        .ok (Secret.mk 2 2 (List.replicate 64 3) []) :=
  ⟨(C10_cipher_two.1 (List.replicate 64 3) none).mpr (by decide),
    C10_cipher_two.2 (List.replicate 64 3) none _ (by decide)⟩

/-- Modelled from the spec: the unpacked identity container GIDC produced
by the external schema layer (the _getlow module is not under src).  It
carries the three packed public keys, the computed GUID and the packed
bytes. -/
structure GIDC where
  signature_key : Bytes
  encryption_key : Bytes
  exchange_key : Bytes
  guid : Guid
  packed : Bytes
deriving DecidableEq, Repr

/-- Modelled from the spec: the encrypted container GEOC of the external
schema layer, after packing and sealing. -/
structure GEOC where
  author : Guid
  payload : Bytes
  guid : Guid
  signature : Bytes
  packed : Bytes
deriving DecidableEq, Repr

/-- Modelled from the spec: the static binding GOBS of the external schema
layer. -/
structure GOBS where
  binder : Guid
  target : Guid
  guid : Guid
  signature : Bytes
  packed : Bytes
deriving DecidableEq, Repr

/-- Modelled from the spec: the dynamic binding GOBD of the external
schema layer; guid_dynamic and history are passed through to the schema
layer unchanged. -/
structure GOBD where
  binder : Guid
  target : Guid
  guid_dynamic : Option Guid
  history : Option (List Guid)
  guid : Guid
  signature : Bytes
  packed : Bytes
deriving DecidableEq, Repr

/-- Modelled from the spec: the debinding GDXX of the external schema
layer. -/
structure GDXX where
  debinder : Guid
  target : Guid
  guid : Guid
  signature : Bytes
  packed : Bytes
deriving DecidableEq, Repr

/-- Inner asymmetric handshake payload (author, target, secret).  The
source src snapshot of utils lists these fields as the PipeRequest record;
the GARQHandshake wire object of the schema layer carries the same three
fields, so one Lean type models both. -/
structure AsymHandshake where
  author : Guid
  target : Guid
  secret : Secret
deriving DecidableEq, Repr

/-- Inner asymmetric ack payload (author, target, status). -/
structure AsymAck where
  author : Guid
  target : Guid
  status : Nat
deriving DecidableEq, Repr

/-- Inner asymmetric nak payload (author, target, status). -/
structure AsymNak where
  author : Guid
  target : Guid
  status : Nat
deriving DecidableEq, Repr

/-- One of the three inner request kinds carried by a GARQ. -/
inductive InnerReq
  | handshake : AsymHandshake → InnerReq
  | ack : AsymAck → InnerReq
  | nak : AsymNak → InnerReq
deriving DecidableEq, Repr

/-- Author GUID of an inner request. -/
def InnerReq.author : InnerReq → Guid
  | .handshake h => h.author
  | .ack a => a.author
  | .nak n => n.author

/-- Modelled from the spec: the asymmetric request GARQ of the external
schema layer.  The plaintext and author fields model the _plaintext and
_author attributes attached by unpack_request (absent on a freshly parsed
object, hence Option). -/
structure GARQ where
  recipient : Guid
  payload : Bytes
  guid : Guid
  signature : Bytes
  plaintext : Option InnerReq
  author : Option Guid
deriving DecidableEq, Repr

/-- Any of the six Golix object kinds, as returned by unpack_object. -/
inductive GolixObj
  | gidc : GIDC → GolixObj
  | geoc : GEOC → GolixObj
  | gobs : GOBS → GolixObj
  | gobd : GOBD → GolixObj
  | gdxx : GDXX → GolixObj
  | garq : GARQ → GolixObj
deriving DecidableEq, Repr

/-- Private key bundle of a FirstParty: RSA signing and encryption key
material as opaque bytes, the Curve25519 exchange key as a scalar. -/
structure Keys where
  signature : Bytes
  encryption : Bytes
  exchange : Nat
deriving DecidableEq, Repr

/-- SecondParty: the public view of an identity (guid plus the three
public keys; packed caches the packed identity container when known). -/
structure SecondParty where
  guid : Guid
  sigPub : Bytes
  encPub : Bytes
  exchPub : Nat
  packed : Option Bytes
deriving DecidableEq, Repr

/-- FirstParty state after __init__: ciphersuite and address algorithm,
own guid, the three private keys, and the optional companion SecondParty
(the _second_party attribute, set only on the generate path). -/
structure FirstParty where
  ciphersuite : Nat
  addressAlgo : Nat
  guid : Guid
  sigKey : Bytes
  encKey : Bytes
  exchKey : Nat
  secondParty : Option SecondParty
deriving Repr

/-- External collaborators: the schema layer pack and unpack functions
(the _getlow module and smartyparse, absent from src and treated by the
spec as an external parser library), and the cryptographic primitives of
pycryptodome and donna25519.  Curve25519 is modelled by scalars: the
public key of scalar x is x itself and the shared point of an exchange is
determined by the product of the two private scalars, which is exactly
the commutative scalar-multiplication structure of Diffie-Hellman on a
cyclic group; dhPoint serializes the shared point.  All fields are
arbitrary functions, so theorems quantified over Externals hold for every
realization of the external collaborators. -/
structure Externals where
  sha512 : Bytes → Bytes
  packGidcBody : Nat → Nat → Bytes → Bytes → Bytes → Bytes
  packGeocBody : Nat → Nat → Guid → Bytes → Bytes
  packGobsBody : Nat → Nat → Guid → Guid → Bytes
  packGobdBody : Nat → Nat → Guid → Guid → Option Guid → Option (List Guid) → Bytes
  packGdxxBody : Nat → Nat → Guid → Guid → Bytes
  packGarqBody : Nat → Nat → Guid → Bytes → Bytes
  packHandshake : AsymHandshake → Bytes
  packAck : AsymAck → Bytes
  packNak : AsymNak → Bytes
  unpackGidc : Bytes → Option GIDC
  unpackGeoc : Bytes → Option GEOC
  unpackGobs : Bytes → Option GOBS
  unpackGobd : Bytes → Option GOBD
  unpackGdxx : Bytes → Option GDXX
  unpackGarq : Bytes → Option GARQ
  unpackHandshake : Bytes → Option AsymHandshake
  unpackAck : Bytes → Option AsymAck
  unpackNak : Bytes → Option AsymNak
  rsaSign : Bytes → Bytes → Bytes
  rsaVerify : Bytes → Bytes → Bytes → Bool
  oaepEncrypt : Bytes → Bytes → Bytes
  oaepDecrypt : Bytes → Bytes → Except PyError Bytes
  aesCtr : Bytes → Bytes → Bytes → Bytes
  hkdf : Bytes → Nat → Bytes → Bytes
  hmac : Bytes → Bytes → Bytes
  dhPoint : Nat → Bytes
  rsaPub : Bytes → Bytes
  rsaModulusBytes : Bytes → Bytes
  curvePointBytes : Nat → Bytes
  importRsa : Bytes → Bytes
  loadExch : Bytes → Nat

/-- Address creation dispatched over utils.ADDRESS_ALGOS: algo 0 returns
the sentinel, algo 1 the SHA-512 digest, anything else is the ValueError
of hash_lookup. -/
def addressCreate (E : Externals) (algo : Nat) (data : Bytes) : Except PyError Bytes :=
  if algo = 0 then .ok dummyAddress
  else if algo = 1 then .ok (E.sha512 data)
  else .error .valueErrorAddr

/-- Loop body of unpack_object: a successful parse overwrites the obj
variable, a failure leaves it. -/
def overwriteStep {α : Type} (acc t : Option α) : Option α :=
  match t with | some o => some o | none => acc

/-- Results of trying each of the six schemas on the packed bytes, in the
tuple order of the source loop: GIDC, GEOC, GOBS, GOBD, GDXX, GARQ.  A
none entry models the schema raising ParseError. -/
def schemaResults (E : Externals) (packed : Bytes) : List (Option GolixObj) :=
  [(E.unpackGidc packed).map .gidc,
   (E.unpackGeoc packed).map .geoc,
   (E.unpackGobs packed).map .gobs,
   (E.unpackGobd packed).map .gobd,
   (E.unpackGdxx packed).map .gdxx,
   (E.unpackGarq packed).map .garq]

/-- _ThirdPartyBase.unpack_object: the loop over the six schemas has no
break, so the obj variable is overwritten by every schema that parses and
the success flag records whether any parsed; all failing raises
ParseError (the UnknownObject of the spec). -/
def unpack_object (E : Externals) (packed : Bytes) : Except PyError GolixObj :=
  match (schemaResults E packed).foldl overwriteStep none with
  | some o => .ok o
  | none => .error .parseError

/-- unpack_object as the specification words it: the FIRST schema that
successfully parses wins.  Stated for comparison against the source. -/
def unpack_object_specFirst (E : Externals) (packed : Bytes) :
    Except PyError GolixObj :=
  match (schemaResults E packed).findSome? id with
  | some o => .ok o
  | none => .error .parseError

theorem foldl_overwrite {α : Type} (l : List (Option α)) (acc : Option α) :
    l.foldl overwriteStep acc = (l.reverse.findSome? id).or acc := by
  induction l generalizing acc with
  | nil => rfl
  | cons t l ih =>
    simp only [List.foldl_cons, List.reverse_cons, List.findSome?_append, ih]
    cases hl : l.reverse.findSome? id with
    | some o => simp [Option.or]
    | none => cases t <;> simp [Option.or, List.findSome?, overwriteStep]

/-- C1 as amended: unpack_object tries every schema in the order GIDC,
GEOC, GOBS, GOBD, GDXX, GARQ and returns the result of the LAST schema
that successfully parses (the loop has no break, so later successes
overwrite earlier ones); when no schema parses it fails with ParseError,
the UnknownObject of the spec.  When at most one schema accepts any given
byte string this coincides with first-success-wins. -/
theorem C1_unpack_object_last_success_wins (E : Externals) (packed : Bytes) :
    unpack_object E packed =
      match (schemaResults E packed).reverse.findSome? id with
      | some o => .ok o
      | none => .error .parseError := by
  unfold unpack_object
  rw [foldl_overwrite, Option.or_none]

/-- Demonstration GUID for concrete instances. -/
def demoGuid : Guid := ⟨1, List.replicate 64 0⟩

/-- Demonstration identity container. -/
def demoGidc : GIDC := ⟨[1], [2], [3], demoGuid, [4]⟩

/-- Demonstration encrypted container. -/
def demoGeoc : GEOC := ⟨demoGuid, [5], demoGuid, [6], [7]⟩

/-- Trivial instantiation of the external collaborators, used to evaluate
the model at concrete inputs. -/
def trivialExternals : Externals where
  sha512 := fun _ => List.replicate 64 0
  packGidcBody := fun _ _ _ _ _ => []
  packGeocBody := fun _ _ _ _ => []
  packGobsBody := fun _ _ _ _ => []
  packGobdBody := fun _ _ _ _ _ _ => []
  packGdxxBody := fun _ _ _ _ => []
  packGarqBody := fun _ _ _ _ => []
  packHandshake := fun _ => []
  packAck := fun _ => []
  packNak := fun _ => []
  unpackGidc := fun _ => none
  unpackGeoc := fun _ => none
  unpackGobs := fun _ => none
  unpackGobd := fun _ => none
  unpackGdxx := fun _ => none
  unpackGarq := fun _ => none
  unpackHandshake := fun _ => none
  unpackAck := fun _ => none
  unpackNak := fun _ => none
  rsaSign := fun _ d => d
  rsaVerify := fun _ _ _ => true
  oaepEncrypt := fun _ d => d
  oaepDecrypt := fun _ d => .ok d
  aesCtr := fun _ _ d => d
  hkdf := fun m _ s => m ++ s
  hmac := fun k d => k ++ d
  dhPoint := fun n => [n]
  rsaPub := fun b => b
  rsaModulusBytes := fun b => b
  curvePointBytes := fun n => [n]
  importRsa := fun b => b
  loadExch := fun _ => 0

/-- Externals realization on which two schemas accept the same bytes. -/
def c1Externals : Externals :=
  { trivialExternals with
    unpackGidc := fun _ => some demoGidc
    unpackGeoc := fun _ => some demoGeoc }

/-- C1 (counterexample): on a byte string that both the GIDC and the GEOC
schema parse, the source returns the result of the last successful schema
(the GEOC), while the claim as stated requires the result of the first
(the GIDC). -/
theorem C1_unpack_object_counterexample :
    unpack_object c1Externals [] = .ok (.geoc demoGeoc) ∧
      unpack_object_specFirst c1Externals [] = .ok (.gidc demoGidc) ∧
      GolixObj.geoc demoGeoc ≠ GolixObj.gidc demoGidc :=
  ⟨rfl, rfl, by decide⟩

/-- Per-suite primitive methods of a FirstParty, as used by the generic
base-class algorithms of _FirstPartyBase: sign takes the private signing
key material and the data; verify takes the partner SecondParty, the
signature and the data; decryptAsym takes the private encryption key
material and the ciphertext; deriveShared takes the FirstParty and the
partner; verifyMac takes key, mac and data.  Theorems quantified over
Prims hold for every suite. -/
structure Prims where
  sign : Bytes → Bytes → Except PyError Bytes
  verify : SecondParty → Bytes → Bytes → Except PyError Bool
  encryptSym : Secret → Bytes → Bytes
  decryptSym : Secret → Bytes → Bytes
  encryptAsym : SecondParty → Bytes → Bytes
  decryptAsym : Bytes → Bytes → Except PyError Bytes
  deriveShared : FirstParty → SecondParty → Bytes
  mac : Bytes → Bytes → Bytes
  verifyMac : Bytes → Bytes → Bytes → Except PyError Bool

/-- _FirstPartyBase.make_container: typecheck the secret against the
identity ciphersuite (TypeError otherwise), symmetric-encrypt the
plaintext into the payload, pack the unsigned body, compute the GUID over
the packed body, sign the GUID address, attach the signature. -/
def make_container (E : Externals) (P : Prims) (fp : FirstParty)
    (secret : Secret) (plaintext : Bytes) : Except PyError GEOC :=
  if secret.cipher = fp.ciphersuite then
    match addressCreate E fp.addressAlgo
        (E.packGeocBody fp.ciphersuite fp.addressAlgo fp.guid
          (P.encryptSym secret plaintext)) with
    | .error e => .error e
    | .ok addr =>
      match P.sign fp.sigKey (Guid.make fp.addressAlgo addr).address with
      | .error e => .error e
      | .ok signature =>
        .ok ⟨fp.guid, P.encryptSym secret plaintext,
          Guid.make fp.addressAlgo addr, signature,
          E.packGeocBody fp.ciphersuite fp.addressAlgo fp.guid
            (P.encryptSym secret plaintext)⟩
  else .error .typeErrorBadSecret

/-- _FirstPartyBase.make_bind_static: pack, compute GUID, sign the GUID
address, attach. -/
def make_bind_static (E : Externals) (P : Prims) (fp : FirstParty)
    (target : Guid) : Except PyError GOBS :=
  match addressCreate E fp.addressAlgo
      (E.packGobsBody fp.ciphersuite fp.addressAlgo fp.guid target) with
  | .error e => .error e
  | .ok addr =>
    match P.sign fp.sigKey (Guid.make fp.addressAlgo addr).address with
    | .error e => .error e
    | .ok signature =>
      .ok ⟨fp.guid, target, Guid.make fp.addressAlgo addr, signature,
        E.packGobsBody fp.ciphersuite fp.addressAlgo fp.guid target⟩

/-- _FirstPartyBase.make_bind_dynamic: pack (the schema layer receives the
optional dynamic guid and history unchanged), compute GUID, sign the GUID
address, attach. -/
def make_bind_dynamic (E : Externals) (P : Prims) (fp : FirstParty)
    (target : Guid) (guid_dynamic : Option Guid) (history : Option (List Guid)) :
    Except PyError GOBD :=
  match addressCreate E fp.addressAlgo
      (E.packGobdBody fp.ciphersuite fp.addressAlgo fp.guid target
        guid_dynamic history) with
  | .error e => .error e
  | .ok addr =>
    match P.sign fp.sigKey (Guid.make fp.addressAlgo addr).address with
    | .error e => .error e
    | .ok signature =>
      .ok ⟨fp.guid, target, guid_dynamic, history,
        Guid.make fp.addressAlgo addr, signature,
        E.packGobdBody fp.ciphersuite fp.addressAlgo fp.guid target
          guid_dynamic history⟩

/-- _FirstPartyBase.make_debind: pack, compute GUID, sign the GUID
address, attach. -/
def make_debind (E : Externals) (P : Prims) (fp : FirstParty)
    (target : Guid) : Except PyError GDXX :=
  match addressCreate E fp.addressAlgo
      (E.packGdxxBody fp.ciphersuite fp.addressAlgo fp.guid target) with
  | .error e => .error e
  | .ok addr =>
    match P.sign fp.sigKey (Guid.make fp.addressAlgo addr).address with
    | .error e => .error e
    | .ok signature =>
      .ok ⟨fp.guid, target, Guid.make fp.addressAlgo addr, signature,
        E.packGdxxBody fp.ciphersuite fp.addressAlgo fp.guid target⟩

/-- Packing of the inner request by make_request: the AsymHandshake,
AsymAck or AsymNak is rebuilt as the corresponding wire object and
packed. -/
def packInner (E : Externals) : InnerReq → Bytes
  | .handshake h => E.packHandshake h
  | .ack a => E.packAck a
  | .nak n => E.packNak n

/-- _FirstPartyBase.make_request: pack the inner request, encrypt it
asymmetrically to the recipient, build the GARQ with the recipient guid
and the payload, pack, compute the GUID, MAC the GUID address under the
shared key derived with the recipient, attach the MAC as signature. -/
def make_request (E : Externals) (P : Prims) (fp : FirstParty)
    (recipient : SecondParty) (request : InnerReq) : Except PyError GARQ :=
  match addressCreate E fp.addressAlgo
      (E.packGarqBody fp.ciphersuite fp.addressAlgo recipient.guid
        (P.encryptAsym recipient (packInner E request))) with
  | .error e => .error e
  | .ok addr =>
    .ok ⟨recipient.guid, P.encryptAsym recipient (packInner E request),
      Guid.make fp.addressAlgo addr,
      P.mac (P.deriveShared fp recipient) (Guid.make fp.addressAlgo addr).address,
      none, none⟩

/-- C5: for every FirstParty (any suite, any primitives) and every Secret
whose declared cipher differs from the ciphersuite of the FirstParty,
make_container fails with the TypeError of _typecheck_secret (the
IncompatibleSuite of the spec) for every plaintext, and no object is
minted. -/
theorem C5_incompatible_secret (E : Externals) (P : Prims) (fp : FirstParty)
    (secret : Secret) (plaintext : Bytes)
    (h : secret.cipher ≠ fp.ciphersuite) :
    make_container E P fp secret plaintext = .error .typeErrorBadSecret := by
  unfold make_container
  rw [if_neg h]

/-- Demonstration primitives for concrete instances. -/
def demoPrims : Prims where
  sign := fun _ d => .ok d
  verify := fun _ _ _ => .ok true
  encryptSym := fun _ d => d
  decryptSym := fun _ d => d
  encryptAsym := fun _ d => d
  decryptAsym := fun _ d => .ok d
  deriveShared := fun _ _ => [2]
  mac := fun k d => k ++ d
  verifyMac := fun _ _ _ => .ok true

/-- Demonstration FirstParty of suite 1 with address algo 1. -/
def demoFp : FirstParty := ⟨1, 1, demoGuid, [9], [8], 5, none⟩

/-- Demonstration Secret declaring cipher 0. -/
def demoSecret0 : Secret := ⟨2, 0, List.replicate 32 0, []⟩

/-- Concrete instance of C5: a suite-1 FirstParty refuses a cipher-0
Secret. -/
theorem C5_incompatible_secret_witness :
    demoSecret0.cipher ≠ demoFp.ciphersuite ∧
      make_container trivialExternals demoPrims demoFp demoSecret0 [1, 2] =
        .error .typeErrorBadSecret :=
  ⟨by decide,
    C5_incompatible_secret trivialExternals demoPrims demoFp demoSecret0 [1, 2]
      (by decide)⟩

/-- C3: for every object minted by make_container, make_bind_static,
make_bind_dynamic, make_debind or make_request, the quantity passed to
the signing primitive (the MAC primitive for make_request) is exactly the
GUID address of the object, where the GUID was computed by the address
algorithm over the packed unsigned body; the packed object itself is
never what is signed. -/
theorem C3_signed_quantity_is_guid_address (E : Externals) (P : Prims)
    (fp : FirstParty) :
    (∀ secret plaintext o, make_container E P fp secret plaintext = .ok o →
      P.sign fp.sigKey o.guid.address = .ok o.signature ∧
      ∃ addr, addressCreate E fp.addressAlgo o.packed = .ok addr ∧
        o.guid = Guid.make fp.addressAlgo addr) ∧
    (∀ target o, make_bind_static E P fp target = .ok o →
      P.sign fp.sigKey o.guid.address = .ok o.signature ∧
      ∃ addr, addressCreate E fp.addressAlgo o.packed = .ok addr ∧
        o.guid = Guid.make fp.addressAlgo addr) ∧
    (∀ target gd hist o, make_bind_dynamic E P fp target gd hist = .ok o →
      P.sign fp.sigKey o.guid.address = .ok o.signature ∧
      ∃ addr, addressCreate E fp.addressAlgo o.packed = .ok addr ∧
        o.guid = Guid.make fp.addressAlgo addr) ∧
    (∀ target o, make_debind E P fp target = .ok o →
      P.sign fp.sigKey o.guid.address = .ok o.signature ∧
      ∃ addr, addressCreate E fp.addressAlgo o.packed = .ok addr ∧
        o.guid = Guid.make fp.addressAlgo addr) ∧
    (∀ recipient req o, make_request E P fp recipient req = .ok o →
      o.signature = P.mac (P.deriveShared fp recipient) o.guid.address ∧
      ∃ addr, addressCreate E fp.addressAlgo
          (E.packGarqBody fp.ciphersuite fp.addressAlgo recipient.guid
            o.payload) = .ok addr ∧
        o.guid = Guid.make fp.addressAlgo addr) := by
  refine ⟨?_, ?_, ?_, ?_, ?_⟩
  · intro secret plaintext o h
    unfold make_container at h
    split at h
    · split at h
      · exact absurd h (by simp)
      next addr haddr =>
        split at h
        · exact absurd h (by simp)
        next sig hsig =>
          cases h
          exact ⟨hsig, addr, haddr, rfl⟩
    · exact absurd h (by simp)
  · intro target o h
    unfold make_bind_static at h
    split at h
    · exact absurd h (by simp)
    next addr haddr =>
      split at h
      · exact absurd h (by simp)
      next sig hsig =>
        cases h
        exact ⟨hsig, addr, haddr, rfl⟩
  · intro target gd hist o h
    unfold make_bind_dynamic at h
    split at h
    · exact absurd h (by simp)
    next addr haddr =>
      split at h
      · exact absurd h (by simp)
      next sig hsig =>
        cases h
        exact ⟨hsig, addr, haddr, rfl⟩
  · intro target o h
    unfold make_debind at h
    split at h
    · exact absurd h (by simp)
    next addr haddr =>
      split at h
      · exact absurd h (by simp)
      next sig hsig =>
        cases h
        exact ⟨hsig, addr, haddr, rfl⟩
  · intro recipient req o h
    unfold make_request at h
    split at h
    · exact absurd h (by simp)
    next addr haddr =>
      cases h
      exact ⟨rfl, addr, haddr, rfl⟩

/-- Concrete instance of C3: a static binding minted with the
demonstration externals carries the signature of its GUID address. -/
theorem C3_signed_quantity_witness :
    make_bind_static trivialExternals demoPrims demoFp demoGuid =
      .ok ⟨demoGuid, demoGuid, demoGuid, List.replicate 64 0, []⟩ ∧
      (demoPrims.sign demoFp.sigKey
          (GOBS.mk demoGuid demoGuid demoGuid (List.replicate 64 0) []).guid.address =
        .ok (GOBS.mk demoGuid demoGuid demoGuid (List.replicate 64 0) []).signature ∧
      ∃ addr, addressCreate trivialExternals demoFp.addressAlgo
          (GOBS.mk demoGuid demoGuid demoGuid (List.replicate 64 0) []).packed =
          .ok addr ∧
        (GOBS.mk demoGuid demoGuid demoGuid (List.replicate 64 0) []).guid =
          Guid.make demoFp.addressAlgo addr) :=
  ⟨by decide,
    (C3_signed_quantity_is_guid_address trivialExternals demoPrims demoFp).2.1
      demoGuid _ (by decide)⟩

/-- FirstParty1._verify, shared by ThirdParty1 as its _verify: freeze the
data as a SHA-512 digest (the frozen-hash constructor rejects data whose
length differs from 64), verify the RSA-PSS signature with the public
signing key of the partner, turning a verification failure into
SecurityError. -/
def fp1Verify (E : Externals) (pub : SecondParty) (signature data : Bytes) :
    Except PyError Bool :=
  if data.length = 64 then
    if E.rsaVerify pub.sigPub signature data then .ok true
    else .error .securityError
  else .error .valueErrorFrozenLen

/-- _ThirdPartyBase.verify_object: dispatch on the object kind; the four
signed symmetric kinds are verified over signature and GUID address, a
GARQ is rejected with the asymmetric ValueError, a GIDC with the identity
ValueError.  The per-suite _verify is a parameter. -/
def verify_object (verifyF : SecondParty → Bytes → Bytes → Except PyError Bool)
    (second_party : SecondParty) (obj : GolixObj) : Except PyError Bool :=
  match obj with
  | .geoc o => verifyF second_party o.signature o.guid.address
  | .gobs o => verifyF second_party o.signature o.guid.address
  | .gobd o => verifyF second_party o.signature o.guid.address
  | .gdxx o => verifyF second_party o.signature o.guid.address
  | .garq _ => .error .valueErrorAsymNotVerifiable
  | .gidc _ => .error .valueErrorIdentityNotSignable

/-- C6: verify_object verifies the suite signature over the signature and
GUID address of the object exactly for GEOC, GOBS, GOBD and GDXX; every
GARQ fails with the asymmetric-not-verifiable ValueError and every GIDC
with the identity-not-signable ValueError.  The last conjunct shows that
the suite-1 verifier consults the signing public key of the given
SecondParty. -/
theorem C6_verify_object_dispatch (E : Externals) (sp : SecondParty) :
    (∀ o : GEOC, verify_object (fp1Verify E) sp (.geoc o) =
      fp1Verify E sp o.signature o.guid.address) ∧
    (∀ o : GOBS, verify_object (fp1Verify E) sp (.gobs o) =
      fp1Verify E sp o.signature o.guid.address) ∧
    (∀ o : GOBD, verify_object (fp1Verify E) sp (.gobd o) =
      fp1Verify E sp o.signature o.guid.address) ∧
    (∀ o : GDXX, verify_object (fp1Verify E) sp (.gdxx o) =
      fp1Verify E sp o.signature o.guid.address) ∧
    (∀ o : GARQ, verify_object (fp1Verify E) sp (.garq o) =
      .error .valueErrorAsymNotVerifiable) ∧
    (∀ o : GIDC, verify_object (fp1Verify E) sp (.gidc o) =
      .error .valueErrorIdentityNotSignable) ∧
    (∀ signature data, data.length = 64 →
      fp1Verify E sp signature data =
        if E.rsaVerify sp.sigPub signature data then .ok true
        else .error .securityError) := by
  refine ⟨fun o => rfl, fun o => rfl, fun o => rfl, fun o => rfl,
    fun o => rfl, fun o => rfl, fun signature data h => ?_⟩
  unfold fp1Verify
  rw [if_pos h]

/-- Demonstration SecondParty. -/
def demoSp : SecondParty := ⟨demoGuid, [11], [12], 7, none⟩

/-- Demonstration GARQ as a freshly parsed object. -/
def demoGarq : GARQ := ⟨demoGuid, [13], demoGuid, [14], none, none⟩

/-- Concrete instance of C6: a GARQ is rejected and a 64-byte address is
verified through the RSA primitive. -/
theorem C6_verify_object_dispatch_witness :
    verify_object (fp1Verify trivialExternals) demoSp (.garq demoGarq) =
      .error .valueErrorAsymNotVerifiable ∧
    (List.replicate 64 0 : Bytes).length = 64 ∧
    fp1Verify trivialExternals demoSp [15] (List.replicate 64 0) =
      (if trivialExternals.rsaVerify demoSp.sigPub [15] (List.replicate 64 0)
        then .ok true else .error .securityError) :=
  ⟨(C6_verify_object_dispatch trivialExternals demoSp).2.2.2.2.1 demoGarq,
    by decide,
    (C6_verify_object_dispatch trivialExternals demoSp).2.2.2.2.2.2 [15]
      (List.replicate 64 0) (by decide)⟩

/-- Inner dispatch of _FirstPartyBase.unpack_request after the payload has
been decrypted: try the handshake, ack and nak parsers in that order; the
first success is attached as _plaintext and its author as _author; if none
parses, SecurityError (the BadRequest of the spec). -/
def unpackRequestInner (E : Externals) (garq : GARQ) (plaintext : Bytes) :
    Except PyError GARQ :=
  match E.unpackHandshake plaintext with
  | some h =>
    .ok { garq with plaintext := some (.handshake h), author := some h.author }
  | none =>
    match E.unpackAck plaintext with
    | some a =>
      .ok { garq with plaintext := some (.ack a), author := some a.author }
    | none =>
      match E.unpackNak plaintext with
      | some n =>
        .ok { garq with plaintext := some (.nak n), author := some n.author }
      | none => .error .securityError

/-- _FirstPartyBase.unpack_request: parse the GARQ, decrypt the payload
with the private encryption key, then dispatch on the three inner
parsers.  No signature or MAC is consulted anywhere. -/
def unpack_request (E : Externals) (P : Prims) (fp : FirstParty)
    (packed : Bytes) : Except PyError GARQ :=
  match E.unpackGarq packed with
  | none => .error .parseError
  | some garq =>
    match P.decryptAsym fp.encKey garq.payload with
    | .error e => .error e
    | .ok plaintext => unpackRequestInner E garq plaintext

/-- C7: for every packed GARQ that parses and whose payload decrypts under
the private encryption key, unpack_request tries handshake, then ack,
then nak, in that order; the first parsed variant is attached as the
plaintext of the GARQ and its author is copied into the author of the
GARQ; if none of the three parses it fails with SecurityError (the
BadRequest of the spec).  The final conjunct shows no signature
verification happens: the attached result is invariant under replacing
the signature field. -/
theorem C7_unpack_request_order (E : Externals) (P : Prims) (fp : FirstParty)
    (packed : Bytes) (garq : GARQ) (pt : Bytes)
    (hg : E.unpackGarq packed = some garq)
    (hd : P.decryptAsym fp.encKey garq.payload = .ok pt) :
    (∀ h, E.unpackHandshake pt = some h →
      unpack_request E P fp packed =
        .ok { garq with plaintext := some (.handshake h), author := some h.author }) ∧
    (E.unpackHandshake pt = none → ∀ a, E.unpackAck pt = some a →
      unpack_request E P fp packed =
        .ok { garq with plaintext := some (.ack a), author := some a.author }) ∧
    (E.unpackHandshake pt = none → E.unpackAck pt = none →
      ∀ n, E.unpackNak pt = some n →
      unpack_request E P fp packed =
        .ok { garq with plaintext := some (.nak n), author := some n.author }) ∧
    (E.unpackHandshake pt = none → E.unpackAck pt = none →
      E.unpackNak pt = none →
      unpack_request E P fp packed = .error .securityError) ∧
    (∀ s, unpackRequestInner E { garq with signature := s } pt =
      (unpackRequestInner E garq pt).map fun g => { g with signature := s }) := by
  refine ⟨?_, ?_, ?_, ?_, ?_⟩
  · intro h hh
    unfold unpack_request
    simp only [hg, hd]
    unfold unpackRequestInner
    simp only [hh]
  · intro hh a ha
    unfold unpack_request
    simp only [hg, hd]
    unfold unpackRequestInner
    simp only [hh, ha]
  · intro hh ha n hn
    unfold unpack_request
    simp only [hg, hd]
    unfold unpackRequestInner
    simp only [hh, ha, hn]
  · intro hh ha hn
    unfold unpack_request
    simp only [hg, hd]
    unfold unpackRequestInner
    simp only [hh, ha, hn]
  · intro s
    cases garq with
    | mk recipient payload guid signature plaintext author =>
      unfold unpackRequestInner
      cases E.unpackHandshake pt with
      | some h => rfl
      | none =>
        cases E.unpackAck pt with
        | some a => rfl
        | none =>
          cases E.unpackNak pt with
          | some n => rfl
          | none => rfl

/-- Demonstration handshake payload. -/
def demoHandshake : AsymHandshake := ⟨demoGuid, demoGuid, demoSecret0⟩

/-- Externals realization whose GARQ parser and handshake parser succeed. -/
def c7Externals : Externals :=
  { trivialExternals with
    unpackGarq := fun _ => some demoGarq
    unpackHandshake := fun _ => some demoHandshake }

/-- Concrete instance of C7: the handshake branch fires and the parsed
author is copied onto the GARQ. -/
theorem C7_unpack_request_order_witness :
    c7Externals.unpackGarq [] = some demoGarq ∧
    demoPrims.decryptAsym demoFp.encKey demoGarq.payload = .ok demoGarq.payload ∧
    unpack_request c7Externals demoPrims demoFp [] =
      .ok { demoGarq with
        plaintext := some (.handshake demoHandshake)
        author := some demoHandshake.author } :=
  ⟨rfl, rfl,
    (C7_unpack_request_order c7Externals demoPrims demoFp [] demoGarq
      demoGarq.payload rfl rfl).1 demoHandshake rfl⟩

/-- _FirstPartyBase.receive_request: requires the _plaintext attribute set
by unpack_request (TypeError otherwise), verifies the MAC over the GUID
address of the request under the key derived with the purported
requestor, then deletes _plaintext and author and returns the plaintext.
The Python method mutates the GARQ; the model returns the cleared GARQ
alongside the result. -/
def receive_request (P : Prims) (fp : FirstParty) (requestor : SecondParty)
    (request : GARQ) : Except PyError (InnerReq × GARQ) :=
  match request.plaintext with
  | none => .error .typeError
  | some plaintext =>
    match P.verifyMac (P.deriveShared fp requestor) request.signature
        request.guid.address with
    | .error e => .error e
    | .ok _ =>
      .ok (plaintext, { request with plaintext := none, author := none })

/-- C2: whenever receive_request succeeds (the MAC over the GUID address
verifies under the shared key derived with the requestor) it returns the
inner payload attached by unpack_request, and the GARQ it leaves behind
has both plaintext and author cleared, so neither unverified value is
readable afterwards. -/
theorem C2_receive_request_clears (P : Prims) (fp : FirstParty)
    (requestor : SecondParty) (request : GARQ) (pt : InnerReq)
    (h1 : request.plaintext = some pt)
    (h2 : P.verifyMac (P.deriveShared fp requestor) request.signature
      request.guid.address = .ok true) :
    receive_request P fp requestor request =
      .ok (pt, { request with plaintext := none, author := none }) ∧
    ({ request with plaintext := none, author := none } : GARQ).plaintext = none ∧
    ({ request with plaintext := none, author := none } : GARQ).author = none := by
  unfold receive_request
  rw [h1, h2]
  exact ⟨rfl, rfl, rfl⟩

/-- Demonstration GARQ as returned by unpack_request, with plaintext and
author attached. -/
def demoGarqUnpacked : GARQ :=
  { demoGarq with
    plaintext := some (.handshake demoHandshake)
    author := some demoGuid }

/-- Concrete instance of C2: after a successful receive_request the GARQ
no longer exposes the unverified plaintext and author. -/
theorem C2_receive_request_clears_witness :
    demoGarqUnpacked.plaintext = some (.handshake demoHandshake) ∧
    demoPrims.verifyMac (demoPrims.deriveShared demoFp demoSp)
      demoGarqUnpacked.signature demoGarqUnpacked.guid.address = .ok true ∧
    receive_request demoPrims demoFp demoSp demoGarqUnpacked =
      .ok (.handshake demoHandshake,
        { demoGarqUnpacked with plaintext := none, author := none }) :=
  ⟨rfl, rfl,
    (C2_receive_request_clears demoPrims demoFp demoSp demoGarqUnpacked
      (.handshake demoHandshake) rfl rfl).1⟩

/-- Bytewise XOR of two byte strings, truncated to the shorter (the zip of
the source). -/
def xorBytes (a b : Bytes) : Bytes := (a.zip b).map fun p => p.1 ^^^ p.2

theorem xorBytes_comm (a b : Bytes) : xorBytes a b = xorBytes b a := by
  induction a generalizing b with
  | nil => cases b <;> rfl
  | cons x a ih =>
    cases b with
    | nil => rfl
    | cons y b =>
      show (x ^^^ y) :: xorBytes a b = (y ^^^ x) :: xorBytes b a
      rw [Nat.xor_comm, ih b]

/-- FirstParty1._derive_shared: Curve25519 exchange between the own
private scalar and the partner public key (the shared point depends on
the product of the two scalars), then HKDF-SHA-512 with output length 64
and salt the bytewise XOR of the two GUID addresses. -/
def fp1DeriveShared (E : Externals) (fp : FirstParty) (partner : SecondParty) :
    Bytes :=
  E.hkdf (E.dhPoint (fp.exchKey * partner.exchPub)) 64
    (xorBytes fp.guid.address partner.guid.address)

/-- C8: the suite-1 shared key is direction independent: with spA the
public view of fpA (same guid, public exchange key of the private scalar
of fpA) and spB the public view of fpB, the key fpA derives against spB
equals the key fpB derives against spA; in particular the HKDF salt, the
bytewise XOR of the two GUID addresses, is the same in both directions. -/
theorem C8_derive_shared_symmetric (E : Externals) (fpA fpB : FirstParty)
    (spA spB : SecondParty)
    (hA1 : spA.exchPub = fpA.exchKey) (hA2 : spA.guid = fpA.guid)
    (hB1 : spB.exchPub = fpB.exchKey) (hB2 : spB.guid = fpB.guid) :
    fp1DeriveShared E fpA spB = fp1DeriveShared E fpB spA ∧
      xorBytes fpA.guid.address fpB.guid.address =
        xorBytes fpB.guid.address fpA.guid.address := by
  refine ⟨?_, xorBytes_comm _ _⟩
  unfold fp1DeriveShared
  rw [hB1, hB2, hA1, hA2, Nat.mul_comm, xorBytes_comm]

/-- Second demonstration GUID, with a different address. -/
def demoGuid2 : Guid := ⟨1, List.replicate 64 1⟩

/-- Second demonstration FirstParty. -/
def demoFp2 : FirstParty := ⟨1, 1, demoGuid2, [21], [22], 9, none⟩

/-- Public view of demoFp. -/
def demoSpOfFp : SecondParty := ⟨demoGuid, [9], [8], 5, none⟩

/-- Public view of demoFp2. -/
def demoSpOfFp2 : SecondParty := ⟨demoGuid2, [21], [22], 9, none⟩

/-- Concrete instance of C8: the two directions agree on the demonstration
identities. -/
theorem C8_derive_shared_symmetric_witness :
    demoSpOfFp.exchPub = demoFp.exchKey ∧ demoSpOfFp.guid = demoFp.guid ∧
    demoSpOfFp2.exchPub = demoFp2.exchKey ∧ demoSpOfFp2.guid = demoFp2.guid ∧
    fp1DeriveShared trivialExternals demoFp demoSpOfFp2 =
      fp1DeriveShared trivialExternals demoFp2 demoSpOfFp :=
  ⟨rfl, rfl, rfl, rfl,
    (C8_derive_shared_symmetric trivialExternals demoFp demoFp2 demoSpOfFp
      demoSpOfFp2 rfl rfl rfl rfl).1⟩

/-- _dispatch_address: the default sentinel (none) resolves to address
algo 1; an explicit algo must be registered in ADDRESS_ALGOS. -/
def dispatchAddress (addressAlgo : Option Nat) : Except PyError Nat :=
  match addressAlgo with
  | none => .ok 1
  | some a => if a = 0 ∨ a = 1 then .ok a else .error .valueErrorAddr

/-- FirstParty1._generate_second_party composed with
SecondParty1.from_keys: derive the public keys, pack them (RSA modulus
bytes, curve point bytes), wrap in an unsigned GIDC, pack it, adopt the
computed GUID and cache the packed bytes. -/
def generateSecondParty1 (E : Externals) (keys : Keys) (addressAlgo : Nat) :
    Except PyError SecondParty :=
  match addressCreate E addressAlgo
      (E.packGidcBody 1 addressAlgo
        (E.rsaModulusBytes (E.rsaPub keys.signature))
        (E.rsaModulusBytes (E.rsaPub keys.encryption))
        (E.curvePointBytes keys.exchange)) with
  | .error e => .error e
  | .ok addr =>
    .ok ⟨Guid.make addressAlgo addr, E.rsaPub keys.signature,
      E.rsaPub keys.encryption, keys.exchange,
      some (E.packGidcBody 1 addressAlgo
        (E.rsaModulusBytes (E.rsaPub keys.signature))
        (E.rsaModulusBytes (E.rsaPub keys.encryption))
        (E.curvePointBytes keys.exchange))⟩

/-- _FirstPartyBase.__init__ for FirstParty1: dispatch the address algo;
with both keys and guid supplied load the identity without setting the
companion _second_party attribute; with exactly one supplied raise
TypeError; with neither, generate the companion SecondParty from fresh
keys (key-generation randomness is modelled by passing the fresh keys as
an argument) and adopt its guid. -/
def firstPartyInit1 (E : Externals) (freshKeys : Keys) (keys : Option Keys)
    (guid : Option Guid) (addressAlgo : Option Nat) : Except PyError FirstParty :=
  match dispatchAddress addressAlgo with
  | .error e => .error e
  | .ok aa =>
    match keys, guid with
    | some k, some g =>
      .ok ⟨1, aa, g, k.signature, k.encryption, k.exchange, none⟩
    | none, none =>
      match generateSecondParty1 E freshKeys aa with
      | .error e => .error e
      | .ok sp =>
        .ok ⟨1, aa, sp.guid, freshKeys.signature, freshKeys.encryption,
          freshKeys.exchange, some sp⟩
    | _, _ => .error .typeError

/-- The second_party property of _FirstPartyBase: reads the _second_party
attribute, which is unset unless the identity was freshly generated. -/
def FirstParty.second_party (fp : FirstParty) : Except PyError SecondParty :=
  match fp.secondParty with
  | some sp => .ok sp
  | none => .error .attributeError

/-- Modelled from the spec: Guid.from_bytes of utils (referenced by
_from_serialized but absent from the src snapshot).  The byte form is the
algo id byte followed by the address, whose length is fixed by the algo
(64 for both registered algos). -/
def guidFromBytes (b : Bytes) : Except PyError Guid :=
  match b with
  | algo :: addr =>
    if (algo = 0 ∨ algo = 1) ∧ addr.length = 64 then .ok (Guid.make algo addr)
    else .error .typeError
  | [] => .error .typeError

/-- Serialization dictionary of FirstParty1._serialize: optional fields
model missing dictionary keys. -/
structure Serialization where
  guid : Option Bytes
  signature : Option Bytes
  encryption : Option Bytes
  exchange : Option Bytes
deriving DecidableEq, Repr

/-- FirstParty1._from_serialized: a missing field or a bad guid is the
TypeError raised from the caught KeyError or TypeError; on success the
class is constructed with both keys and guid supplied and the default
address algo; the fresh-keys argument of the generate path is irrelevant
on this path and passed as a dummy. -/
def fromSerialized1 (E : Externals) (ser : Serialization) :
    Except PyError FirstParty :=
  match ser.guid, ser.signature, ser.encryption, ser.exchange with
  | some gb, some sk, some ek, some xk =>
    match guidFromBytes gb with
    | .error _ => .error .typeError
    | .ok guid =>
      firstPartyInit1 E ⟨[], [], 0⟩
        (some ⟨E.importRsa sk, E.importRsa ek, E.loadExch xk⟩) (some guid) none
  | _, _, _, _ => .error .typeError

/-- C9: a FirstParty reconstructed from a serialization (keys and guid
both supplied) never has the _second_party attribute set, so reading the
second_party property raises AttributeError; a freshly generated
FirstParty has it set, and its guid equals the guid of the companion
SecondParty. -/
theorem C9_second_party_only_when_generated (E : Externals) :
    (∀ ser fp, fromSerialized1 E ser = .ok fp →
      fp.secondParty = none ∧ fp.second_party = .error .attributeError) ∧
    (∀ freshKeys addressAlgo fp,
      firstPartyInit1 E freshKeys none none addressAlgo = .ok fp →
      ∃ sp, fp.secondParty = some sp ∧ fp.second_party = .ok sp ∧
        sp.guid = fp.guid) := by
  constructor
  · intro ser fp h
    unfold fromSerialized1 at h
    split at h
    next gb sk ek xk =>
      split at h
      · exact absurd h (by simp)
      next guid hg =>
        unfold firstPartyInit1 at h
        simp only [dispatchAddress] at h
        cases h
        exact ⟨rfl, rfl⟩
    next =>
      exact absurd h (by simp)
  · intro freshKeys addressAlgo fp h
    unfold firstPartyInit1 at h
    split at h
    · exact absurd h (by simp)
    next aa haa =>
      simp only [] at h
      split at h
      · exact absurd h (by simp)
      next sp hsp =>
        cases h
        exact ⟨sp, rfl, rfl, rfl⟩

/-- Demonstration key bundle. -/
def demoKeys : Keys := ⟨[3], [4], 5⟩

/-- Demonstration serialization of an identity. -/
def demoSer : Serialization :=
  ⟨some (1 :: List.replicate 64 2), some [3], some [4], some [5]⟩

/-- FirstParty loaded from demoSer under the trivial externals. -/
def demoLoadedFp : FirstParty :=
  ⟨1, 1, ⟨1, List.replicate 64 2⟩, [3], [4], 0, none⟩

/-- Companion SecondParty generated from demoKeys under the trivial
externals. -/
def demoGenSp : SecondParty := ⟨demoGuid, [3], [4], 5, some []⟩

/-- Freshly generated FirstParty from demoKeys under the trivial
externals. -/
def demoGenFp : FirstParty := ⟨1, 1, demoGuid, [3], [4], 5, some demoGenSp⟩

/-- Concrete instance of C9: the loaded identity raises AttributeError on
second_party, the generated one exposes a companion with the same guid. -/
theorem C9_second_party_only_when_generated_witness :
    fromSerialized1 trivialExternals demoSer = .ok demoLoadedFp ∧
    demoLoadedFp.second_party = .error .attributeError ∧
    firstPartyInit1 trivialExternals demoKeys none none none = .ok demoGenFp ∧
    (∃ sp, demoGenFp.secondParty = some sp ∧ demoGenFp.second_party = .ok sp ∧
      sp.guid = demoGenFp.guid) :=
  ⟨rfl,
    ((C9_second_party_only_when_generated trivialExternals).1 demoSer
      demoLoadedFp rfl).2,
    rfl,
    (C9_second_party_only_when_generated trivialExternals).2 demoKeys none
      demoGenFp rfl⟩
